import Mathlib

/-!
Shallow embedding of `pyroomacoustics/directivities.py`.

Conventions of the embedding:
* numpy float arrays become real-valued functions over `Fin`-indexed
  coordinates (for the statically shaped cardioid code) or lists of lists of
  reals (for `source_angle_shoebox`, whose shape handling is dynamic);
* Python `assert` statements become `Option`-returning functions (`none`
  models an `AssertionError` raised before any output is produced);
* in-place numpy mutation (`x /= ...`) is modelled by returning the final
  state of every argument array alongside the computed response.
-/

open scoped BigOperators

/-- Shorthand for `np.radians`: degree-to-radian conversion. -/
noncomputable def np_radians (x : ℝ) : ℝ := x * (Real.pi / 180)

/-- Shorthand for `np.degrees`: radian-to-degree conversion. -/
noncomputable def np_degrees (x : ℝ) : ℝ := x * (180 / Real.pi)

/-- Shorthand for `np.arctan2 y x`: the argument of the complex number
`x + y·i`, lying in `(-π, π]`. -/
noncomputable def np_arctan2 (y x : ℝ) : ℝ := Complex.arg ⟨x, y⟩

/-- Shorthand for `np.matmul(v, x)` with `v` of shape `(3,)` and `x` of shape
`(3, N)`: the vector of dot products of `v` with each column of `x`. -/
def np_matmul_vec {N : ℕ} (v : Fin 3 → ℝ) (x : Fin 3 → Fin N → ℝ) (j : Fin N) : ℝ :=
  ∑ i : Fin 3, v i * x i j

/-- Shorthand for `np.linalg.norm(v)` of a 1-D array of length 3. -/
noncomputable def vec_norm (v : Fin 3 → ℝ) : ℝ := Real.sqrt (∑ i : Fin 3, v i ^ 2)

/-- Shorthand for `np.linalg.norm(x, axis=0)` of a `(3, N)` array, at column
`j`: the Euclidean norm of that column. -/
noncomputable def col_norm {N : ℕ} (x : Fin 3 → Fin N → ℝ) (j : Fin N) : ℝ :=
  Real.sqrt (∑ i : Fin 3, x i j ^ 2)

/-- The `DirectivityPattern` enumeration of `directivities.py`: the five
named cardioid-family patterns. -/
inductive DirectivityPattern : Type
  | FIGURE_EIGHT
  | HYPERCARDIOID
  | CARDIOID
  | SUBCARDIOID
  | OMNI
deriving DecidableEq

/-- The `.value` of each `DirectivityPattern` member: the shape coefficient
bound to the pattern (`FIGURE_EIGHT = 0`, `HYPERCARDIOID = 0.25`,
`CARDIOID = 0.5`, `SUBCARDIOID = 0.75`, `OMNI = 1.0`). -/
def DirectivityPattern.value : DirectivityPattern → ℝ
  | .FIGURE_EIGHT => 0
  | .HYPERCARDIOID => 0.25
  | .CARDIOID => 0.5
  | .SUBCARDIOID => 0.75
  | .OMNI => 1.0

/-- The `.name` of each `DirectivityPattern` member. -/
def DirectivityPattern.enum_name : DirectivityPattern → String
  | .FIGURE_EIGHT => "FIGURE_EIGHT"
  | .HYPERCARDIOID => "HYPERCARDIOID"
  | .CARDIOID => "CARDIOID"
  | .SUBCARDIOID => "SUBCARDIOID"
  | .OMNI => "OMNI"

/-- Python equality between a float and a member of a plain `Enum` class, as
in the source line `if self._p == DirectivityPattern.OMNI:` where `self._p`
holds the float `pattern_enum.value`.  `DirectivityPattern` derives from
`Enum` only (not `IntEnum` and no `float` mixin), so `float.__eq__` returns
`NotImplemented` and the reflected comparison falls back to the default
identity test, which a float never passes against an enum member: the
comparison evaluates to `False` for every float, including `1.0`. -/
def pyFloatEqEnum (_x : ℝ) (_e : DirectivityPattern) : Bool := false

/-- The state stored by `DirectionVector.__init__` after validation: azimuth
and colatitude, both in radians. -/
structure DirectionVector : Type where
  azimuth : ℝ
  colatitude : ℝ

/-- The constructor `DirectionVector.__init__(azimuth, colatitude, degrees)`.
Degree inputs are converted to radians first (colatitude only when it was
provided); an omitted colatitude then defaults to `π / 2`; the assertion
`colatitude <= np.pi and colatitude >= 0` is modelled by returning `none`
when it fails. -/
noncomputable def DirectionVector.make (azimuth : ℝ) (colatitude : Option ℝ)
    (degrees : Bool) : Option DirectionVector :=
  let az := if degrees = true then np_radians azimuth else azimuth
  let col0 := if degrees = true then colatitude.map np_radians else colatitude
  let col := col0.getD (Real.pi / 2)
  if col ≤ Real.pi ∧ 0 ≤ col then some ⟨az, col⟩ else none

/-- The derived `_unit_v` attribute of a `DirectionVector`:
`(cos az · sin col, sin az · sin col, cos col)`. -/
noncomputable def DirectionVector.unit_v (d : DirectionVector) : Fin 3 → ℝ :=
  ![Real.cos d.azimuth * Real.sin d.colatitude,
    Real.sin d.azimuth * Real.sin d.colatitude,
    Real.cos d.colatitude]

/-- The accessor `DirectionVector.get_azimuth(degrees)` (explicit flag). -/
noncomputable def DirectionVector.get_azimuth (d : DirectionVector) (degrees : Bool) : ℝ :=
  if degrees = true then np_degrees d.azimuth else d.azimuth

/-- The accessor `DirectionVector.get_colatitude(degrees)` (explicit flag). -/
noncomputable def DirectionVector.get_colatitude (d : DirectionVector) (degrees : Bool) : ℝ :=
  if degrees = true then np_degrees d.colatitude else d.colatitude

/-- Calling `DirectionVector.get_azimuth()` with no argument: the Python
default is `degrees=False`. -/
noncomputable def DirectionVector.get_azimuth_noarg (d : DirectionVector) : ℝ :=
  d.get_azimuth false

/-- Calling `DirectionVector.get_colatitude()` with no argument: the Python
default is `degrees=False`. -/
noncomputable def DirectionVector.get_colatitude_noarg (d : DirectionVector) : ℝ :=
  d.get_colatitude false

/-- The state of the abstract base class `Directivity`: the stored
orientation. -/
structure Directivity : Type where
  orientation : DirectionVector

/-- The accessor `Directivity.get_azimuth(degrees)` (explicit flag): it
forwards to the orientation's accessor. -/
noncomputable def Directivity.get_azimuth (d : Directivity) (degrees : Bool) : ℝ :=
  d.orientation.get_azimuth degrees

/-- The accessor `Directivity.get_colatitude(degrees)` (explicit flag). -/
noncomputable def Directivity.get_colatitude (d : Directivity) (degrees : Bool) : ℝ :=
  d.orientation.get_colatitude degrees

/-- Calling `Directivity.get_azimuth()` with no argument: the Python default
is `degrees=True`. -/
noncomputable def Directivity.get_azimuth_noarg (d : Directivity) : ℝ :=
  d.get_azimuth true

/-- Calling `Directivity.get_colatitude()` with no argument: the Python
default is `degrees=True`. -/
noncomputable def Directivity.get_colatitude_noarg (d : Directivity) : ℝ :=
  d.get_colatitude true

/-- The state stored by `CardioidFamily.__init__`: the inherited orientation
plus `_p` (a float, set to `pattern_enum.value`), `_gain`, and
`_pattern_name`. -/
structure CardioidFamily extends Directivity : Type where
  p : ℝ
  gain : ℝ
  pattern_name : String

/-- The constructor `CardioidFamily(orientation, pattern_enum, gain)`. -/
def CardioidFamily.make (orientation : DirectionVector)
    (pattern_enum : DirectivityPattern) (gain : ℝ) : CardioidFamily :=
  { orientation := orientation
    p := pattern_enum.value
    gain := gain
    pattern_name := pattern_enum.enum_name }

/-- The method `CardioidFamily.get_response(coord, magnitude)` for `coord` of
shape `(3, N)`.  The source's fast-path test `self._p == DirectivityPattern.OMNI`
compares the stored float against the enum member itself (see
`pyFloatEqEnum`); when it is taken the method returns `np.ones(coord.shape[1])`,
otherwise it returns `gain·p + (1−p)·matmul(unit_v, coord)`, taking the
element-wise absolute value when `magnitude` is set. -/
noncomputable def CardioidFamily.get_response {N : ℕ} (c : CardioidFamily)
    (coord : Fin 3 → Fin N → ℝ) (magnitude : Bool) : Fin N → ℝ :=
  if pyFloatEqEnum c.p DirectivityPattern.OMNI = true then
    fun _ => 1
  else
    fun j =>
      let resp := c.gain * c.p + (1 - c.p) *
        np_matmul_vec c.orientation.unit_v coord j
      if magnitude = true then |resp| else resp

/-- The function `cardioid_func(x, direction, coef, gain, normalize, magnitude)`.
The asserts `coef >= 0.0` and `coef <= 1.0` are modelled by `none`.  The
normalization step uses numpy's in-place `/=`, mutating the caller's arrays:
the returned triple is (final state of `x`, final state of `direction`,
response array). -/
noncomputable def cardioid_func {N : ℕ} (x : Fin 3 → Fin N → ℝ) (direction : Fin 3 → ℝ)
    (coef gain : ℝ) (normalize magnitude : Bool) :
    Option ((Fin 3 → Fin N → ℝ) × (Fin 3 → ℝ) × (Fin N → ℝ)) :=
  if 0 ≤ coef ∧ coef ≤ 1 then
    let x2 := if normalize = true then fun i j => x i j / col_norm x j else x
    let dir2 := if normalize = true then fun i => direction i / vec_norm direction
      else direction
    let resp := fun j => gain * (coef + (1 - coef) * np_matmul_vec dir2 x2 j)
    some (x2, dir2, if magnitude = true then fun j => |resp j| else resp)
  else
    none

/-- Shape of `np.array(a)` for a list-of-rows `a`, when that array is 2-D and
its shape unpacks as `dim, n = a.shape`: `some (rows, cols)` for a nonempty
rectangular nesting, `none` otherwise (an empty or ragged nesting does not
produce a 2-D float array whose shape unpacks into two components). -/
def npShape2 {α : Type} (a : List (List α)) : Option (ℕ × ℕ) :=
  match a with
  | [] => none
  | r :: rs =>
    if rs.all (fun r2 => r2.length == r.length) then some (rs.length + 1, r.length)
    else none

/-- Result length of numpy broadcasting along one axis: lengths `a` and `b`
are compatible when they are equal or one of them is `1`, and the broadcast
length is the larger one; incompatible lengths raise, modelled as `none`. -/
def bcastLen (a b : ℕ) : Option ℕ :=
  if a = b then some a else if a = 1 then some b else if b = 1 then some a else none

/-- Index into an array of width `w` that has been broadcast to a wider
result: a width-1 array repeats its single entry. -/
def bidx (w j : ℕ) : ℕ := if w = 1 then 0 else j

/-- The function `source_angle_shoebox(image_source_array, n_array, mic)`,
with dynamic numpy shape semantics.  `none` models a raised exception: the
shape unpack `dim, n_sources = image_source_array.shape` failing, one of the
asserts `n_array.shape[0] == dim` / `mic.shape[0] == dim` failing, the
broadcast of `n_array + np.ones_like(image_source_array)` failing, or the row
accesses `p_dash_array[1]` / `p_dash_array[2]` running out of rows.
Otherwise the azimuth and colatitude lists are returned, using
`p_dash = (image_source - mic) * (-1)^(n + 1)` per entry, with width-1
operands broadcast across the result width. -/
noncomputable def source_angle_shoebox (image_source_array : List (List ℝ))
    (n_array : List (List ℤ)) (mic : List ℝ) : Option (List ℝ × List ℝ) :=
  (npShape2 image_source_array).bind fun s =>
  (npShape2 n_array).bind fun t =>
  if t.1 = s.1 ∧ mic.length = s.1 then
    (bcastLen t.2 s.2).bind fun w =>
    if 2 ≤ s.1 then
      let dim := s.1
      let n_sources := s.2
      let n_cols := t.2
      let p_vector := fun (i j : ℕ) =>
        (image_source_array.getD i []).getD j 0 - mic.getD i 0
      let d := fun (j : ℕ) =>
        Real.sqrt (((List.range dim).map (fun i => p_vector i j ^ 2)).sum)
      let p_dash := fun (i j : ℕ) =>
        p_vector i (bidx n_sources j) *
          (-1 : ℝ) ^ ((n_array.getD i []).getD (bidx n_cols j) 0 + 1)
      let azimuth := (List.range w).map (fun j => np_arctan2 (p_dash 1 j) (p_dash 0 j))
      if dim = 2 then
        some (azimuth, (List.range n_sources).map (fun _ => Real.pi / 2))
      else
        some (azimuth, (List.range w).map (fun j =>
          Real.pi / 2 - Real.arcsin (p_dash 2 j / d (bidx n_sources j))))
    else none
  else none

/-- Concrete example orientation: azimuth `0`, colatitude `π / 2`, in
radians; its unit vector is `(1, 0, 0)`. -/
noncomputable def dv_ex : DirectionVector := ⟨0, Real.pi / 2⟩

/-- Concrete `(3, 1)` coordinate array holding the single column
`(1, 0, 0)`. -/
def x100 : Fin 3 → Fin 1 → ℝ := fun i _ => if i = 0 then 1 else 0

/-- Concrete direction array `(2, 0, 0)` (length `2`, not normalized). -/
def d200 : Fin 3 → ℝ := fun i => if i = 0 then 2 else 0

/-- Concrete `(3, 1)` coordinate array holding an arbitrary constant
column. -/
def coord_ex : Fin 3 → Fin 1 → ℝ := fun _ _ => 5

/-- Single-column coordinate array built from a vector. -/
def colMat (v : Fin 3 → ℝ) : Fin 3 → Fin 1 → ℝ := fun i _ => v i

/-- Concrete single image source at `(1, 0, 0)` (one column, three rows). -/
def img3 : List (List ℝ) := [[1], [0], [0]]

/-- Concrete reflection counts `[0, 0, 0]` for a single image source. -/
def n3 : List (List ℤ) := [[0], [0], [0]]

/-- Concrete receiver at the origin. -/
def mic3 : List ℝ := [0, 0, 0]

/-- Concrete two image sources at `(1, 0, 0)` and `(2, 0, 0)` (shape `(3, 2)`). -/
def img32 : List (List ℝ) := [[1, 2], [0, 0], [0, 0]]

/-! Helper lemmas shared by the claim theorems. -/

lemma npShape2_rect {α : Type} (a : List (List α)) (N : ℕ)
    (hne : a ≠ []) (hr : ∀ r ∈ a, r.length = N) :
    npShape2 a = some (a.length, N) := by
  cases a with
  | nil => exact absurd rfl hne
  | cons r rs =>
    have hrN : r.length = N := hr r (List.mem_cons_self r rs)
    have hall : ∀ x ∈ rs, x.length = N := fun x hx => hr x (List.mem_cons_of_mem r hx)
    simp only [npShape2, List.length_cons, hrN]
    rw [if_pos]
    rw [List.all_eq_true]
    intro x hx
    simp [hall x hx, hrN]

lemma bcastLen_self (n : ℕ) : bcastLen n n = some n := by
  simp [bcastLen]

lemma bcastLen_isSome (a b : ℕ) :
    (bcastLen a b).isSome = true ↔ (a = b ∨ a = 1 ∨ b = 1) := by
  unfold bcastLen
  split_ifs <;> simp_all

lemma bidx_of_lt {N j : ℕ} (h : j < N) : bidx N j = j := by
  unfold bidx
  split_ifs with h1
  · omega
  · rfl

lemma unit_v_dot_self (d : DirectionVector) :
    (∑ i : Fin 3, d.unit_v i * d.unit_v i) = 1 := by
  simp only [DirectionVector.unit_v, Fin.sum_univ_three, Matrix.cons_val_zero,
    Matrix.cons_val_one, Matrix.head_cons, Matrix.cons_val_two, Matrix.tail_cons]
  nlinarith [Real.sin_sq_add_cos_sq d.azimuth, Real.sin_sq_add_cos_sq d.colatitude]

lemma np_arctan2_zero_one : np_arctan2 0 1 = 0 := by
  have h : ((⟨1, 0⟩ : ℂ)) = 1 := by
    apply Complex.ext <;> simp
  rw [np_arctan2, h, Complex.arg_one]

lemma np_arctan2_zero_neg_one : np_arctan2 0 (-1) = Real.pi := by
  have h : ((⟨-1, 0⟩ : ℂ)) = -1 := by
    apply Complex.ext <;> simp
  rw [np_arctan2, h, Complex.arg_neg_one]

/-- C10: the model-level accessors default to degrees (no-argument call
converts the stored radians to degrees), while the underlying orientation
vector's accessors default to radians (no-argument call returns the stored
radians unchanged): the two interfaces have opposite default units. -/
theorem C10_accessor_default_units (d : Directivity) :
    Directivity.get_azimuth_noarg d = np_degrees d.orientation.azimuth ∧
    Directivity.get_colatitude_noarg d = np_degrees d.orientation.colatitude ∧
    DirectionVector.get_azimuth_noarg d.orientation = d.orientation.azimuth ∧
    DirectionVector.get_colatitude_noarg d.orientation = d.orientation.colatitude := by
  refine ⟨?_, ?_, ?_, ?_⟩ <;>
    simp [Directivity.get_azimuth_noarg, Directivity.get_colatitude_noarg,
      Directivity.get_azimuth, Directivity.get_colatitude,
      DirectionVector.get_azimuth_noarg, DirectionVector.get_colatitude_noarg,
      DirectionVector.get_azimuth, DirectionVector.get_colatitude]

lemma direction_vector_make_some (az c : ℝ) (deg : Bool) :
    DirectionVector.make az (some c) deg =
      (if (if deg = true then np_radians c else c) ≤ Real.pi ∧
          0 ≤ (if deg = true then np_radians c else c)
       then some ⟨if deg = true then np_radians az else az,
          if deg = true then np_radians c else c⟩
       else none) := by
  cases deg <;> rfl

lemma direction_vector_make_none (az : ℝ) (deg : Bool) :
    DirectionVector.make az none deg =
      (if Real.pi / 2 ≤ Real.pi ∧ 0 ≤ Real.pi / 2
       then some ⟨if deg = true then np_radians az else az, Real.pi / 2⟩
       else none) := by
  cases deg <;> rfl

/-- C7: constructing a `DirectionVector` succeeds exactly when the
colatitude, after degree-to-radian conversion when the degrees flag is set,
lies in `[0, π]` (bounds included), and an omitted colatitude defaults to
`π / 2` with construction succeeding. -/
theorem C7_colatitude_validation (az c : ℝ) (deg : Bool) :
    ((DirectionVector.make az (some c) deg).isSome = true ↔
      (0 ≤ (if deg = true then np_radians c else c) ∧
        (if deg = true then np_radians c else c) ≤ Real.pi)) ∧
    DirectionVector.make az none deg =
      some ⟨if deg = true then np_radians az else az, Real.pi / 2⟩ := by
  have hpi := Real.pi_pos
  constructor
  · rw [direction_vector_make_some]
    generalize (if deg = true then np_radians az else az) = s
    generalize (if deg = true then np_radians c else c) = t
    split_ifs with h
    · simp only [Option.isSome_some, true_iff]
      exact ⟨h.2, h.1⟩
    · simp only [Option.isSome_none, Bool.false_eq_true, false_iff]
      intro hc
      exact h ⟨hc.2, hc.1⟩
  · rw [direction_vector_make_none, if_pos ⟨by linarith, by linarith⟩]

/-- C1 (code evaluation at the failing input): a model built with the
omnidirectional pattern and gain `2` returns `2`, not `1`, because the
fast-path test `self._p == DirectivityPattern.OMNI` compares the stored
float against the enum member and is always false, so the general formula
`gain·p + (1−p)·dot` with `p = 1` yields the gain. -/
theorem C1_omni_fast_path_dead :
    CardioidFamily.get_response (CardioidFamily.make dv_ex DirectivityPattern.OMNI 2)
      coord_ex false 0 = 2 ∧ (2 : ℝ) ≠ 1 := by
  constructor
  · have h : DirectivityPattern.OMNI.value = (1 : ℝ) := by
      norm_num [DirectivityPattern.value]
    simp [CardioidFamily.get_response, CardioidFamily.make, pyFloatEqEnum, h]
  · norm_num

lemma sas_eval (D N : ℕ) (img : List (List ℝ)) (n : List (List ℤ)) (mic : List ℝ)
    (hD : 2 ≤ D) (himg : img.length = D) (himgr : ∀ r ∈ img, r.length = N)
    (hn : n.length = D) (hnr : ∀ r ∈ n, r.length = N) (hmic : mic.length = D) :
    source_angle_shoebox img n mic = some (
      (List.range N).map (fun j => np_arctan2
        (((img.getD 1 []).getD j 0 - mic.getD 1 0) *
          (-1 : ℝ) ^ ((n.getD 1 []).getD j 0 + 1))
        (((img.getD 0 []).getD j 0 - mic.getD 0 0) *
          (-1 : ℝ) ^ ((n.getD 0 []).getD j 0 + 1))),
      if D = 2 then (List.range N).map (fun _ => Real.pi / 2)
      else (List.range N).map (fun j =>
        Real.pi / 2 - Real.arcsin
          ((((img.getD 2 []).getD j 0 - mic.getD 2 0) *
            (-1 : ℝ) ^ ((n.getD 2 []).getD j 0 + 1)) /
            Real.sqrt (((List.range D).map (fun i =>
              ((img.getD i []).getD j 0 - mic.getD i 0) ^ 2)).sum)))) := by
  have hne : img ≠ [] := by
    intro h
    rw [h] at himg
    simp at himg
    omega
  have hne2 : n ≠ [] := by
    intro h
    rw [h] at hn
    simp at hn
    omega
  have h1 : npShape2 img = some (D, N) := by
    rw [← himg]
    exact npShape2_rect img N hne himgr
  have h2 : npShape2 n = some (D, N) := by
    rw [← hn]
    exact npShape2_rect n N hne2 hnr
  unfold source_angle_shoebox
  rw [h1, h2]
  simp only [Option.some_bind]
  rw [if_pos (⟨trivial, hmic⟩ : True ∧ mic.length = D), bcastLen_self]
  simp only [Option.some_bind]
  rw [if_pos hD]
  have haz : (List.range N).map (fun j => np_arctan2
      ((((img.getD 1 []).getD (bidx N j) 0 - mic.getD 1 0)) *
        (-1 : ℝ) ^ ((n.getD 1 []).getD (bidx N j) 0 + 1))
      ((((img.getD 0 []).getD (bidx N j) 0 - mic.getD 0 0)) *
        (-1 : ℝ) ^ ((n.getD 0 []).getD (bidx N j) 0 + 1))) =
    (List.range N).map (fun j => np_arctan2
      (((img.getD 1 []).getD j 0 - mic.getD 1 0) *
        (-1 : ℝ) ^ ((n.getD 1 []).getD j 0 + 1))
      (((img.getD 0 []).getD j 0 - mic.getD 0 0) *
        (-1 : ℝ) ^ ((n.getD 0 []).getD j 0 + 1))) := by
    apply List.map_congr_left
    intro j hj
    rw [bidx_of_lt (List.mem_range.mp hj)]
  by_cases hD2 : D = 2
  · rw [if_pos hD2, if_pos hD2]
    exact congrArg some (congrArg₂ Prod.mk haz rfl)
  · rw [if_neg hD2, if_neg hD2]
    refine congrArg some (congrArg₂ Prod.mk haz ?_)
    apply List.map_congr_left
    intro j hj
    rw [bidx_of_lt (List.mem_range.mp hj)]

/-- C4: for well-shaped input (positions and reflection counts of shape
`(D, N)`, receiver of shape `(D,)`, `D ∈ {2, 3}`, every distance nonzero),
the angle resolver computes per image source the displacement minus the
receiver, the per-axis adjusted component `displacement · (−1)^(count+1)`,
azimuth `atan2(adjusted_y, adjusted_x)`, and colatitude `π/2` when `D = 2`
or `π/2 − asin(adjusted_z / distance)` when `D = 3`, with the distance the
Euclidean norm of the unadjusted displacement. -/
theorem C4_angle_resolver_formulas (D N : ℕ) (img : List (List ℝ)) (n : List (List ℤ))
    (mic : List ℝ) (hD : D = 2 ∨ D = 3) (himg : img.length = D)
    (himgr : ∀ r ∈ img, r.length = N) (hn : n.length = D) (hnr : ∀ r ∈ n, r.length = N)
    (hmic : mic.length = D)
    (hdist : ∀ j < N, Real.sqrt (((List.range D).map (fun i =>
      ((img.getD i []).getD j 0 - mic.getD i 0) ^ 2)).sum) ≠ 0) :
    source_angle_shoebox img n mic = some (
      (List.range N).map (fun j => np_arctan2
        (((img.getD 1 []).getD j 0 - mic.getD 1 0) *
          (-1 : ℝ) ^ ((n.getD 1 []).getD j 0 + 1))
        (((img.getD 0 []).getD j 0 - mic.getD 0 0) *
          (-1 : ℝ) ^ ((n.getD 0 []).getD j 0 + 1))),
      if D = 2 then (List.range N).map (fun _ => Real.pi / 2)
      else (List.range N).map (fun j =>
        Real.pi / 2 - Real.arcsin
          ((((img.getD 2 []).getD j 0 - mic.getD 2 0) *
            (-1 : ℝ) ^ ((n.getD 2 []).getD j 0 + 1)) /
            Real.sqrt (((List.range D).map (fun i =>
              ((img.getD i []).getD j 0 - mic.getD i 0) ^ 2)).sum)))) :=
  sas_eval D N img n mic (by omega) himg himgr hn hnr hmic

/-- Witness for C4: the hypotheses hold and the conclusion follows at the
concrete input `img3`, `n3`, `mic3` (one 3-D image source at `(1,0,0)`,
zero reflection counts, receiver at the origin). -/
theorem C4_angle_resolver_formulas_witness :
    ((3 : ℕ) = 2 ∨ (3 : ℕ) = 3) ∧
    img3.length = 3 ∧
    (∀ r ∈ img3, r.length = 1) ∧
    n3.length = 3 ∧
    (∀ r ∈ n3, r.length = 1) ∧
    mic3.length = 3 ∧
    (∀ j < 1, Real.sqrt (((List.range 3).map (fun i =>
      ((img3.getD i []).getD j 0 - mic3.getD i 0) ^ 2)).sum) ≠ 0) ∧
    source_angle_shoebox img3 n3 mic3 = some (
      (List.range 1).map (fun j => np_arctan2
        (((img3.getD 1 []).getD j 0 - mic3.getD 1 0) *
          (-1 : ℝ) ^ ((n3.getD 1 []).getD j 0 + 1))
        (((img3.getD 0 []).getD j 0 - mic3.getD 0 0) *
          (-1 : ℝ) ^ ((n3.getD 0 []).getD j 0 + 1))),
      if (3 : ℕ) = 2 then (List.range 1).map (fun _ => Real.pi / 2)
      else (List.range 1).map (fun j =>
        Real.pi / 2 - Real.arcsin
          ((((img3.getD 2 []).getD j 0 - mic3.getD 2 0) *
            (-1 : ℝ) ^ ((n3.getD 2 []).getD j 0 + 1)) /
            Real.sqrt (((List.range 3).map (fun i =>
              ((img3.getD i []).getD j 0 - mic3.getD i 0) ^ 2)).sum)))) := by
  have hdist : ∀ j < 1, Real.sqrt (((List.range 3).map (fun i =>
      ((img3.getD i []).getD j 0 - mic3.getD i 0) ^ 2)).sum) ≠ 0 := by
    intro j hj
    have hj0 : j = 0 := by omega
    subst hj0
    have hsum : ((List.range 3).map (fun i =>
        ((img3.getD i []).getD 0 0 - mic3.getD i 0) ^ 2)).sum = 1 := by
      norm_num [List.range_succ, img3, mic3]
    rw [hsum, Real.sqrt_one]
    norm_num
  exact ⟨by norm_num, by simp [img3], by simp [img3], by simp [n3], by simp [n3],
    by simp [mic3], hdist,
    C4_angle_resolver_formulas 3 1 img3 n3 mic3 (by norm_num) (by simp [img3])
      (by simp [img3]) (by simp [n3]) (by simp [n3]) (by simp [mic3]) hdist⟩

/-- C3 counterexample: for the image source at `(1, 0, 0)` with reflection
counts all zero and the receiver at the origin, the resolver returns azimuth
`π` and colatitude `π/2`, while the claim demands azimuth
`atan2(0−0, 1−0) = 0`; since `π ≠ 0` the claim fails (the sign flips ARE
applied when all counts are zero, because `(−1)^(0+1) = −1`). -/
theorem C3_counterexample :
    source_angle_shoebox img3 n3 mic3 = some ([Real.pi], [Real.pi / 2]) ∧
    np_arctan2 (0 - 0) (1 - 0) = 0 ∧ Real.pi ≠ 0 := by
  refine ⟨?_, ?_, Real.pi_ne_zero⟩
  · rw [sas_eval 3 1 img3 n3 mic3 (by norm_num) (by simp [img3]) (by simp [img3])
      (by simp [n3]) (by simp [n3]) (by simp [mic3])]
    simp only [img3, n3, mic3, List.range_succ, List.range_zero, List.nil_append,
      List.map_cons, List.map_nil, List.getD_cons_zero, List.getD_cons_succ]
    norm_num [np_arctan2_zero_neg_one, Real.arcsin_zero]
  · norm_num [np_arctan2_zero_one]

/-- C3 amended: for a 3-D image source `p` with reflection counts all zero
and receiver `r` distinct from `p`, the resolver returns azimuth
`atan2(r_y−p_y, r_x−p_x)` and colatitude `π/2 − asin((r_z−p_z)/‖p−r‖)`:
every displacement component is negated (the sign flip `(−1)^(0+1) = −1` is
applied on each axis) relative to the claimed formulas. -/
theorem C3_zero_counts_amended (p0 p1 p2 r0 r1 r2 : ℝ)
    (h : ¬(p0 = r0 ∧ p1 = r1 ∧ p2 = r2)) :
    source_angle_shoebox [[p0], [p1], [p2]] n3 [r0, r1, r2] =
      some ([np_arctan2 (r1 - p1) (r0 - p0)],
        [Real.pi / 2 - Real.arcsin ((r2 - p2) /
          Real.sqrt ((p0 - r0) ^ 2 + (p1 - r1) ^ 2 + (p2 - r2) ^ 2))]) := by
  rw [sas_eval 3 1 [[p0], [p1], [p2]] n3 [r0, r1, r2] (by norm_num) (by simp)
    (by simp) (by simp [n3]) (by simp [n3]) (by simp)]
  simp only [n3, List.range_succ, List.range_zero, List.map_cons,
    List.map_nil, List.map_append, List.sum_append, List.sum_cons, List.sum_nil,
    List.getD_cons_zero, List.getD_cons_succ, List.nil_append, List.cons_append]
  norm_num
  congr 1
  congr 1
  congr 1
  ring

/-- Witness for the amended C3: the hypothesis holds and the conclusion
follows for the image source `(1, 0, 0)` and receiver at the origin. -/
theorem C3_zero_counts_amended_witness :
    ¬((1 : ℝ) = 0 ∧ (0 : ℝ) = 0 ∧ (0 : ℝ) = 0) ∧
    source_angle_shoebox [[1], [0], [0]] n3 [0, 0, 0] =
      some ([np_arctan2 (0 - 0) (0 - 1)],
        [Real.pi / 2 - Real.arcsin ((0 - 0) /
          Real.sqrt (((1 : ℝ) - 0) ^ 2 + ((0 : ℝ) - 0) ^ 2 + ((0 : ℝ) - 0) ^ 2))]) :=
  ⟨by norm_num, C3_zero_counts_amended 1 0 0 0 0 0 (by norm_num)⟩

/-- C8 counterexample: positions of shape `(3, 2)` with a reflection-count
array of shape `(3, 1)` — a mismatch in the number of points — is NOT
rejected: the assert only checks the row count, and numpy broadcasts the
single column of counts across both image sources, so the call returns a
result. -/
theorem C8_counterexample :
    (source_angle_shoebox img32 n3 mic3).isSome = true := by
  have h1 : npShape2 img32 = some (3, 2) := by
    rw [show ((3 : ℕ), (2 : ℕ)) = (img32.length, 2) by simp [img32]]
    exact npShape2_rect img32 2 (by simp [img32]) (by simp [img32])
  have h2 : npShape2 n3 = some (3, 1) := by
    rw [show ((3 : ℕ), (1 : ℕ)) = (n3.length, 1) by simp [n3]]
    exact npShape2_rect n3 1 (by simp [n3]) (by simp [n3])
  unfold source_angle_shoebox
  rw [h1, h2]
  simp only [Option.some_bind]
  rw [if_pos (⟨trivial, by simp [mic3]⟩ : True ∧ mic3.length = 3)]
  norm_num [bcastLen]

/-- C8 amended: for rectangular 2-D inputs with positions of shape `(D, N)`,
`D ∈ {2, 3}`, and a 2-D reflection-count array of shape `(K, M)`, the
resolver fails exactly when the dimensionality mismatches (`K ≠ D` or the
receiver length differs from `D`) or the point counts are incompatible under
numpy broadcasting (`M ≠ N` with both different from `1`); a single-column
count array (`M = 1`) is silently broadcast across all `N` sources rather
than rejected. -/
theorem C8_shape_check_amended (D N M : ℕ) (img : List (List ℝ)) (n : List (List ℤ))
    (mic : List ℝ) (hD : D = 2 ∨ D = 3) (himg : img.length = D)
    (himgr : ∀ r ∈ img, r.length = N) (hnr : ∀ r ∈ n, r.length = M) :
    (source_angle_shoebox img n mic).isSome = true ↔
      (n.length = D ∧ mic.length = D ∧ (M = N ∨ M = 1 ∨ N = 1)) := by
  have hD2 : 2 ≤ D := by omega
  have hne : img ≠ [] := by
    intro hx
    rw [hx] at himg
    simp at himg
    omega
  have h1 : npShape2 img = some (D, N) := by
    rw [← himg]
    exact npShape2_rect img N hne himgr
  cases n with
  | nil =>
    unfold source_angle_shoebox
    rw [h1]
    simp only [npShape2, Option.some_bind, Option.none_bind]
    simp only [Option.isSome_none, Bool.false_eq_true, false_iff]
    intro hc
    have := hc.1
    simp at this
    omega
  | cons r rs =>
    have h2 : npShape2 (r :: rs) = some ((r :: rs).length, M) :=
      npShape2_rect (r :: rs) M (by simp) hnr
    unfold source_angle_shoebox
    rw [h1, h2]
    simp only [Option.some_bind]
    by_cases hcond : (r :: rs).length = D ∧ mic.length = D
    · rw [if_pos hcond]
      rcases hbc : bcastLen M N with _ | w
      · simp only [Option.none_bind, Option.isSome_none, Bool.false_eq_true, false_iff]
        intro hc
        have h3 := (bcastLen_isSome M N).mpr hc.2.2
        rw [hbc] at h3
        simp at h3
      · have h3 : M = N ∨ M = 1 ∨ N = 1 := by
          apply (bcastLen_isSome M N).mp
          rw [hbc]
          rfl
        simp only [Option.some_bind]
        rw [if_pos hD2]
        constructor
        · intro _
          exact ⟨hcond.1, hcond.2, h3⟩
        · intro _
          split_ifs <;> rfl
    · rw [if_neg hcond]
      simp only [Option.isSome_none, Bool.false_eq_true, false_iff]
      intro hc
      exact hcond ⟨hc.1, hc.2.1⟩

/-- Witness for the amended C8: the hypotheses hold and the conclusion
follows at the concrete mismatched input (`(3, 2)` positions, `(3, 1)`
counts, receiver of length 3). -/
theorem C8_shape_check_amended_witness :
    ((3 : ℕ) = 2 ∨ (3 : ℕ) = 3) ∧
    img32.length = 3 ∧
    (∀ r ∈ img32, r.length = 2) ∧
    (∀ r ∈ n3, r.length = 1) ∧
    ((source_angle_shoebox img32 n3 mic3).isSome = true ↔
      (n3.length = 3 ∧ mic3.length = 3 ∧ ((1 : ℕ) = 2 ∨ (1 : ℕ) = 1 ∨ (2 : ℕ) = 1))) :=
  ⟨by norm_num, by simp [img32], by simp [img32], by simp [n3],
    C8_shape_check_amended 3 2 1 img32 n3 mic3 (by norm_num) (by simp [img32])
      (by simp [img32]) (by simp [n3])⟩

lemma dv_ex_unit_v : DirectionVector.unit_v dv_ex = ![1, 0, 0] := by
  funext i
  fin_cases i <;> simp [DirectionVector.unit_v, dv_ex]

lemma dv_ex_dot_x100 : np_matmul_vec dv_ex.unit_v x100 0 = 1 := by
  rw [np_matmul_vec, dv_ex_unit_v]
  simp [x100, Fin.sum_univ_three]

lemma fig8_resp (o : DirectionVector) (g : ℝ) (u : Fin 3 → ℝ) (mag : Bool) :
    CardioidFamily.get_response
        (CardioidFamily.make o DirectivityPattern.FIGURE_EIGHT g) (colMat u) mag 0 =
      (if mag = true then |∑ i : Fin 3, o.unit_v i * u i|
       else ∑ i : Fin 3, o.unit_v i * u i) := by
  simp [CardioidFamily.get_response, CardioidFamily.make, pyFloatEqEnum,
    DirectivityPattern.value, np_matmul_vec, colMat]

/-- C5: for every non-omnidirectional pattern, `get_response` returns per
column `gain·p + (1−p)·(unit_orientation · column)`, with the element-wise
absolute value when the magnitude flag is set and the signed value
otherwise. -/
theorem C5_general_formula (o : DirectionVector) (pat : DirectivityPattern) (g : ℝ)
    {N : ℕ} (coord : Fin 3 → Fin N → ℝ) (mag : Bool) (j : Fin N)
    (hpat : pat ≠ DirectivityPattern.OMNI) :
    CardioidFamily.get_response (CardioidFamily.make o pat g) coord mag j =
      (if mag = true
       then |g * pat.value + (1 - pat.value) * np_matmul_vec o.unit_v coord j|
       else g * pat.value + (1 - pat.value) * np_matmul_vec o.unit_v coord j) := by
  simp [CardioidFamily.get_response, CardioidFamily.make, pyFloatEqEnum]

/-- Witness for C5: the hypothesis holds and the conclusion follows for the
cardioid pattern with unit gain at a concrete column. -/
theorem C5_general_formula_witness :
    DirectivityPattern.CARDIOID ≠ DirectivityPattern.OMNI ∧
    CardioidFamily.get_response
        (CardioidFamily.make dv_ex DirectivityPattern.CARDIOID 1) coord_ex false 0 =
      (if false = true
       then |1 * DirectivityPattern.CARDIOID.value +
          (1 - DirectivityPattern.CARDIOID.value) * np_matmul_vec dv_ex.unit_v coord_ex 0|
       else 1 * DirectivityPattern.CARDIOID.value +
          (1 - DirectivityPattern.CARDIOID.value) * np_matmul_vec dv_ex.unit_v coord_ex 0) :=
  ⟨by decide,
    C5_general_formula dv_ex DirectivityPattern.CARDIOID 1 coord_ex false 0 (by decide)⟩

/-- C6 counterexample: a figure-eight model with gain `2` evaluated at its
own unit orientation returns `1`, not the gain `2`: in the source the gain
multiplies only the coefficient `p = 0`, so it drops out of the figure-eight
response entirely. -/
theorem C6_counterexample :
    CardioidFamily.get_response
        (CardioidFamily.make dv_ex DirectivityPattern.FIGURE_EIGHT 2)
        (colMat dv_ex.unit_v) false 0 = 1 ∧ (1 : ℝ) ≠ 2 := by
  refine ⟨?_, by norm_num⟩
  rw [fig8_resp]
  simp [unit_v_dot_self dv_ex]

/-- C6 amended: for every figure-eight model (`p = 0`) with orientation unit
vector `u` and any gain, the signed response at `u` is `1` and at `−u` is
`−1` (the gain drops out because it multiplies only `p = 0`), and the
magnitudes at `u` and `−u` coincide. -/
theorem C6_figure_eight_amended (o : DirectionVector) (g : ℝ) :
    CardioidFamily.get_response
        (CardioidFamily.make o DirectivityPattern.FIGURE_EIGHT g)
        (colMat o.unit_v) false 0 = 1 ∧
    CardioidFamily.get_response
        (CardioidFamily.make o DirectivityPattern.FIGURE_EIGHT g)
        (colMat (fun i => -(o.unit_v i))) false 0 = -1 ∧
    CardioidFamily.get_response
        (CardioidFamily.make o DirectivityPattern.FIGURE_EIGHT g)
        (colMat o.unit_v) true 0 =
      CardioidFamily.get_response
        (CardioidFamily.make o DirectivityPattern.FIGURE_EIGHT g)
        (colMat (fun i => -(o.unit_v i))) true 0 := by
  have hneg : (∑ i : Fin 3, o.unit_v i * -(o.unit_v i)) = -1 := by
    simp only [mul_neg, Finset.sum_neg_distrib, unit_v_dot_self o]
  refine ⟨?_, ?_, ?_⟩
  · rw [fig8_resp]
    simp [unit_v_dot_self o]
  · rw [fig8_resp]
    simp only [Bool.false_eq_true, if_false, hneg]
  · rw [fig8_resp, fig8_resp]
    simp only [if_true, hneg, unit_v_dot_self o]
    norm_num

/-- C2 counterexample: with coefficient `0`, gain `2`, orientation `(1,0,0)`
and the single query column `(1,0,0)`, the one-shot function returns `2`
(gain times the whole expression) while the model form returns `1` (gain
times the coefficient only): the two disagree for gain other than `1`. -/
theorem C2_counterexample :
    (cardioid_func x100 dv_ex.unit_v 0 2 false false).map (fun t => t.2.2 0) = some 2 ∧
    CardioidFamily.get_response
        (CardioidFamily.make dv_ex DirectivityPattern.FIGURE_EIGHT 2) x100 false 0 = 1 ∧
    (2 : ℝ) ≠ 1 := by
  refine ⟨?_, ?_, by norm_num⟩
  · simp only [cardioid_func]
    rw [if_pos (by norm_num : (0 : ℝ) ≤ 0 ∧ (0 : ℝ) ≤ 1)]
    simp [dv_ex_dot_x100]
  · simp only [CardioidFamily.get_response, CardioidFamily.make, pyFloatEqEnum,
      DirectivityPattern.value]
    simp [dv_ex_dot_x100]

/-- C2 amended: with gain `1`, for every coefficient `p ∈ [0, 1]`, every
orientation, every `(3, N)` coordinate array and magnitude flag, the
one-shot function without normalization returns exactly the model form's
response; for a general gain the two differ (the one-shot form multiplies
the whole expression by the gain, the model form only the coefficient). -/
theorem C2_gain_one_amended (o : DirectionVector) (p : ℝ) (hp0 : 0 ≤ p) (hp1 : p ≤ 1)
    {N : ℕ} (x : Fin 3 → Fin N → ℝ) (m : Bool) (s : String) :
    (cardioid_func x o.unit_v p 1 false m).map (fun t => t.2.2) =
      some (CardioidFamily.get_response
        { orientation := o, p := p, gain := 1, pattern_name := s } x m) := by
  simp only [cardioid_func]
  rw [if_pos ⟨hp0, hp1⟩]
  simp only [CardioidFamily.get_response, pyFloatEqEnum,
    Bool.false_eq_true, if_false, Option.map_some']
  congr 1
  cases m
  · simp only [Bool.false_eq_true, if_false]
    funext j
    ring
  · simp only [if_true]
    funext j
    congr 1
    ring

/-- Witness for the amended C2: the hypotheses hold and the conclusion
follows at coefficient `1/2`, gain `1`, concrete orientation and column. -/
theorem C2_gain_one_amended_witness :
    (0 : ℝ) ≤ 1 / 2 ∧ (1 / 2 : ℝ) ≤ 1 ∧
    (cardioid_func x100 dv_ex.unit_v (1 / 2) 1 false false).map (fun t => t.2.2) =
      some (CardioidFamily.get_response
        { orientation := dv_ex, p := 1 / 2, gain := 1, pattern_name := "CARDIOID" }
        x100 false) :=
  ⟨by norm_num, by norm_num,
    C2_gain_one_amended dv_ex (1 / 2) (by norm_num) (by norm_num) x100 false "CARDIOID"⟩

/-- C9 counterexample: calling the one-shot function with the normalize flag
set overwrites the caller's direction array in place: after the call the
direction entry that was `2` reads back as `1` (division by its norm), so
the inputs are NOT left unchanged. -/
theorem C9_counterexample :
    (cardioid_func x100 d200 (1 / 2) 1 true false).map (fun t => t.2.1 0) = some 1 ∧
    d200 0 = 2 ∧ (1 : ℝ) ≠ 2 := by
  have hnorm : vec_norm d200 = 2 := by
    rw [vec_norm]
    have h4 : (∑ i : Fin 3, d200 i ^ 2) = 4 := by
      simp [d200, Fin.sum_univ_three]
      norm_num
    rw [h4, show (4 : ℝ) = 2 ^ 2 by norm_num, Real.sqrt_sq (by norm_num : (0 : ℝ) ≤ 2)]
  refine ⟨?_, by simp [d200], by norm_num⟩
  simp only [cardioid_func]
  rw [if_pos (by norm_num : (0 : ℝ) ≤ 1 / 2 ∧ (1 / 2 : ℝ) ≤ 1)]
  simp [hnorm, d200]

/-- C9 amended: with the normalize flag unset, the one-shot function leaves
both input arrays unchanged (the final states it could have mutated equal
the inputs); with the flag set, the caller's points and direction are
overwritten in place with their normalized versions. -/
theorem C9_no_normalize_pure (coef g : ℝ) (hc0 : 0 ≤ coef) (hc1 : coef ≤ 1)
    {N : ℕ} (x : Fin 3 → Fin N → ℝ) (dir : Fin 3 → ℝ) (m : Bool) :
    (cardioid_func x dir coef g false m).map (fun t => (t.1, t.2.1)) = some (x, dir) := by
  simp only [cardioid_func]
  rw [if_pos ⟨hc0, hc1⟩]
  simp

/-- Witness for the amended C9: the hypotheses hold and the conclusion
follows at concrete inputs. -/
theorem C9_no_normalize_pure_witness :
    (0 : ℝ) ≤ 1 / 2 ∧ (1 / 2 : ℝ) ≤ 1 ∧
    (cardioid_func x100 d200 (1 / 2) 1 false false).map (fun t => (t.1, t.2.1)) =
      some (x100, d200) :=
  ⟨by norm_num, by norm_num,
    C9_no_normalize_pure (1 / 2) 1 (by norm_num) (by norm_num) x100 d200 false⟩
